import Mathlib

/-!
Verification of the cross-region 2PC coordination plane of an AV fleet
management system, shallowly embedded from the Python sources:

* `services/models.py`    — pydantic validation models,
* `services/phoenix_api.py` — regional 2PC participant endpoints,
* `services/coordinator.py` — handoff coordinator and query router.

MongoDB collections are modelled as Lean lists of documents; `find_one`,
`update_one`, `delete_one` and `insert_one` act on the first match, in
document order, exactly as the driver does on an unindexed scan.
Python floats that only ever carry monetary values or timestamps are
modelled as exact rationals / integers.
-/

namespace CSE512

/-- First-match update: `update_one(filter, set)` semantics over a list. -/
def updateFirst (p : α → Bool) (f : α → α) : List α → List α
  | [] => []
  | x :: xs => if p x then f x :: xs else x :: updateFirst p f xs

/-- First-match delete: `delete_one(filter)` semantics; returns
`(deleted_count, remaining documents)`. -/
def deleteOne (p : α → Bool) : List α → Nat × List α
  | [] => (0, [])
  | x :: xs =>
    if p x then (1, xs)
    else
      let r := deleteOne p xs
      (r.1, x :: r.2)

theorem find?_updateFirst (p : α → Bool) (f : α → α)
    (hf : ∀ x, p x = true → p (f x) = true) :
    ∀ l : List α, (updateFirst p f l).find? p = (l.find? p).map f := by
  intro l
  induction l with
  | nil => rfl
  | cons x xs ih =>
    by_cases hx : p x = true
    · simp [updateFirst, hx, List.find?, hf x hx]
    · simp only [updateFirst, hx, Bool.false_eq_true, if_false, List.find?]
      exact ih

theorem deleteOne_removed_matches (p : α → Bool) :
    ∀ l : List α, ∀ x ∈ l, x ∉ (deleteOne p l).2 → p x = true := by
  intro l
  induction l with
  | nil => intro x hx; cases hx
  | cons y ys ih =>
    intro x hx hnot
    by_cases hy : p y = true
    · simp [deleteOne, hy] at hnot
      rcases List.mem_cons.mp hx with rfl | hxs
      · exact hy
      · exact absurd hxs hnot
    · simp only [deleteOne, hy, Bool.false_eq_true, if_false] at hnot
      rcases List.mem_cons.mp hx with rfl | hxs
      · exact absurd (List.mem_cons_self x _) hnot
      · exact ih x hxs (fun hmem => hnot (List.mem_cons_of_mem y hmem))

/-- Operation kind of a 2PC request (`Literal["INSERT", "DELETE"]` in
`services/models.py`). -/
inductive Op
  | INSERT
  | DELETE
deriving DecidableEq

/-- A ride document as stored in a regional `rides` collection; only the
fields that the 2PC endpoints read or write are kept, remaining payload
fields are irrelevant to every claim. -/
structure RideDoc where
  rideId : String
  locked : Bool
  transaction_id : Option String
  handoff_status : Option String
deriving DecidableEq

/-- A participant transaction record, as written by `prepare_transaction`
into the regional `transactions` collection (`services/phoenix_api.py`). -/
structure TxRecord where
  tx_id : String
  ride_id : String
  operation : Op
  state : String
  ride_data : Option RideDoc
deriving DecidableEq

/-- The durable state of one regional participant: its `rides` collection
and its `transactions` collection. -/
structure RegionState where
  rides : List RideDoc
  txs : List TxRecord
deriving DecidableEq

/-- `PrepareRequest` from `services/models.py`. -/
structure PrepareRequest where
  ride_id : String
  tx_id : String
  operation : Op
deriving DecidableEq

/-- `PrepareResponse` from `services/models.py`: the vote literal is kept
as a string exactly as returned on the wire. -/
structure PrepareResponse where
  vote : String
  reason : Option String
  ride_data : Option RideDoc
deriving DecidableEq

/-- `CommitRequest` from `services/models.py`. -/
structure CommitRequest where
  ride_id : String
  tx_id : String
  operation : Op
  ride_data : Option RideDoc
deriving DecidableEq

/-- `CommitResponse` from `services/models.py`. -/
structure CommitResponse where
  status : String
  deleted_count : Option Nat
  inserted_id : Option String
deriving DecidableEq

/-- `AbortRequest` from `services/models.py`. -/
structure AbortRequest where
  tx_id : String
deriving DecidableEq

/-- `POST /2pc/prepare` handler `prepare_transaction` in
`services/phoenix_api.py` (lines 329-401): for DELETE it looks up the
ride, aborts when absent or locked, otherwise locks it, records a
PREPARED participant record with a snapshot of the pre-lock document and
votes COMMIT; for INSERT it records a PREPARED participant record and
votes COMMIT unconditionally, inserting nothing into `rides`. -/
def prepare_transaction (st : RegionState) (req : PrepareRequest) :
    PrepareResponse × RegionState :=
  match req.operation with
  | Op.DELETE =>
    match st.rides.find? (fun r => r.rideId == req.ride_id) with
    | none =>
      (⟨"ABORT", some ("Ride " ++ req.ride_id ++ " not found in Phoenix"), none⟩, st)
    | some ride =>
      if ride.locked then
        (⟨"ABORT", some ("Ride " ++ req.ride_id ++ " is locked by another transaction"),
          none⟩, st)
      else
        (⟨"COMMIT", none, some ride⟩,
         { rides :=
             updateFirst (fun r => r.rideId == req.ride_id)
               (fun r =>
                 { r with locked := true, transaction_id := some req.tx_id,
                          handoff_status := some "PREPARING" })
               st.rides,
           txs := st.txs ++ [⟨req.tx_id, req.ride_id, Op.DELETE, "PREPARED", some ride⟩] })
  | Op.INSERT =>
    (⟨"COMMIT", none, none⟩,
     { st with txs := st.txs ++ [⟨req.tx_id, req.ride_id, Op.INSERT, "PREPARED", none⟩] })

/-- `POST /2pc/commit` handler `commit_transaction` in
`services/phoenix_api.py` (lines 404-446): for DELETE it runs
`delete_one` with the filter on `rideId` alone and reports COMMITTED with
the `deleted_count`; for INSERT it appends `ride_data` when present; in
both cases the first participant record with this `tx_id` is set to
COMMITTED. -/
def commit_transaction (st : RegionState) (req : CommitRequest) :
    CommitResponse × RegionState :=
  match req.operation with
  | Op.DELETE =>
    let d := deleteOne (fun r => r.rideId == req.ride_id) st.rides
    (⟨"COMMITTED", some d.1, none⟩,
     { rides := d.2,
       txs := updateFirst (fun t => t.tx_id == req.tx_id)
                (fun t => { t with state := "COMMITTED" }) st.txs })
  | Op.INSERT =>
    (⟨"COMMITTED", none, some req.ride_id⟩,
     { rides :=
         match req.ride_data with
         | some rd => st.rides ++ [rd]
         | none => st.rides,
       txs := updateFirst (fun t => t.tx_id == req.tx_id)
                (fun t => { t with state := "COMMITTED" }) st.txs })

/-- `POST /2pc/abort` handler `abort_transaction` in
`services/phoenix_api.py` (lines 449-487): when a participant record for
`tx_id` exists, a DELETE transaction unlocks the first ride whose
`transaction_id` equals `tx_id`, and the record is set to ABORTED. -/
def abort_transaction (st : RegionState) (req : AbortRequest) :
    String × RegionState :=
  match st.txs.find? (fun t => t.tx_id == req.tx_id) with
  | none => ("ABORTED", st)
  | some tx =>
    ("ABORTED",
     { rides :=
         if tx.operation = Op.DELETE then
           updateFirst (fun r => r.transaction_id == some req.tx_id)
             (fun r =>
               { r with locked := false, transaction_id := none, handoff_status := none })
             st.rides
         else st.rides,
       txs := updateFirst (fun t => t.tx_id == req.tx_id)
                (fun t => { t with state := "ABORTED" }) st.txs })

/-- Which regional endpoint an outgoing HTTP call of the coordinator hits
(`TwoPhaseCommitCoordinator` in `services/coordinator.py`). -/
inductive Callee
  | prepareS
  | prepareT
  | commitS
  | commitT
  | abortS
  | abortT
deriving DecidableEq

/-- One observable effect of a coordinator run: an outgoing participant
call, or an insert into the global `transactions` collection performed by
`_log_transaction` (status and optional error string). -/
inductive Ev
  | call : Callee → Ev
  | tlWrite : String → Option String → Ev
deriving DecidableEq

/-- Outcome of one prepare HTTP exchange as seen inside `_prepare_source`
or `_prepare_target`: the request raised (`transportError`), or a
response arrived with a status code and a JSON body whose `vote` key may
be absent. -/
inductive PrepOutcome
  | transportError
  | httpStatus : Nat → Option String → Option RideDoc → PrepOutcome
deriving DecidableEq

/-- Value returned by `_prepare_source` and `_prepare_target`
(`services/coordinator.py` lines 203-261): exceptions and non-200
responses collapse to `"ABORT"`, otherwise `result.get("vote")`. -/
def prepVote : PrepOutcome → Option String
  | PrepOutcome.transportError => some "ABORT"
  | PrepOutcome.httpStatus code vote _ => if code ≠ 200 then some "ABORT" else vote

/-- Places in the body of `execute` where an unexpected exception could
escape into its `except` handler; every helper call swallows its own
exceptions, so only the glue between the phases remains. -/
inductive ExnPoint
  | betweenPreps
  | beforeCommits
  | betweenCommits
  | afterCommits
deriving DecidableEq

/-- Environment of one `execute` run: the two prepare outcomes, whether
`_abort_all` reaches the target before its (swallowed) exception, whether
the `_log_transaction` insert raises (swallowed, so the write is lost),
and an optional internal exception with its message. -/
structure ExecEnv where
  sourcePrep : PrepOutcome
  targetPrep : PrepOutcome
  abortReachesTarget : Bool
  logFails : Bool
  exnPoint : Option (ExnPoint × String)
deriving DecidableEq

/-- `HandoffResponse` from `services/models.py` (lines 286-301); the
status literal is kept as the wire string. -/
structure HandoffResponse where
  status : String
  tx_id : String
  reason : Option String
  latency_ms : ℚ
deriving DecidableEq

/-- Calls issued by `_abort_all` (`services/coordinator.py` lines
316-336): source abort, then target abort unless an exception cut the
fan-out short; the exception is caught inside `_abort_all`. -/
def abortAllEvs (env : ExecEnv) : List Ev :=
  if env.abortReachesTarget then [Ev.call Callee.abortS, Ev.call Callee.abortT]
  else [Ev.call Callee.abortS]

/-- Effect of `_log_transaction` (`services/coordinator.py` lines
338-353): one insert into the global transaction log, lost entirely when
the insert raises (the exception is caught). -/
def logEvs (env : ExecEnv) (st : String) (err : Option String) : List Ev :=
  if env.logFails then [] else [Ev.tlWrite st err]

/-- Whether the run's internal exception fires at point `p`. -/
def exnAt (env : ExecEnv) (p : ExnPoint) : Option String :=
  match env.exnPoint with
  | some (q, msg) => if q = p then some msg else none
  | none => none

/-- The `except` branch of `execute` (`services/coordinator.py` lines
191-201): abort fan-out, transaction logged ABORTED with the error
message, response ABORTED with the stringified exception as reason. -/
def exceptPath (tx : String) (lat : ℚ) (env : ExecEnv) (msg : String)
    (evs : List Ev) : HandoffResponse × List Ev :=
  (⟨"ABORTED", tx, some msg, lat⟩,
   evs ++ abortAllEvs env ++ logEvs env "ABORTED" (some msg))

/-- `TwoPhaseCommitCoordinator.execute` (`services/coordinator.py` lines
141-201), returning the handoff response together with the trace of
outgoing participant calls and transaction-log writes, in program order.
The latency value measured at response time is the parameter `lat`. -/
def execute (tx : String) (lat : ℚ) (env : ExecEnv) : HandoffResponse × List Ev :=
  let evs1 := [Ev.call Callee.prepareS]
  if prepVote env.sourcePrep ≠ some "COMMIT" then
    (⟨"ABORTED", tx, some "Source region aborted transaction", lat⟩, evs1)
  else
    match exnAt env ExnPoint.betweenPreps with
    | some msg => exceptPath tx lat env msg evs1
    | none =>
      let evs2 := evs1 ++ [Ev.call Callee.prepareT]
      if prepVote env.targetPrep ≠ some "COMMIT" then
        (⟨"ABORTED", tx, some "Target region aborted transaction", lat⟩,
         evs2 ++ abortAllEvs env)
      else
        match exnAt env ExnPoint.beforeCommits with
        | some msg => exceptPath tx lat env msg evs2
        | none =>
          let evs3 := evs2 ++ [Ev.call Callee.commitS]
          match exnAt env ExnPoint.betweenCommits with
          | some msg => exceptPath tx lat env msg evs3
          | none =>
            let evs4 := evs3 ++ [Ev.call Callee.commitT]
            match exnAt env ExnPoint.afterCommits with
            | some msg => exceptPath tx lat env msg evs4
            | none =>
              (⟨"SUCCESS", tx, none, lat⟩, evs4 ++ logEvs env "SUCCESS" none)

/-- `HealthMonitor.is_healthy` (`services/coordinator.py` lines 89-91):
`self.health_status.get(region, False)` over the health table. -/
def is_healthy (hs : List (String × Bool)) (region : String) : Bool :=
  match hs.lookup region with
  | some b => b
  | none => false

/-- `initiate_handoff` (`services/coordinator.py` lines 364-396): when
the target is unhealthy it returns BUFFERED immediately with a fresh
transaction id, reason naming the target, latency 0 and an empty effect
trace; otherwise it runs the 2PC coordinator. The fresh uuid of either
branch is the parameter `tx`. -/
def initiate_handoff (hs : List (String × Bool)) (target : String)
    (tx : String) (lat : ℚ) (env : ExecEnv) : HandoffResponse × List Ev :=
  if ¬ is_healthy hs target then
    (⟨"BUFFERED", tx,
      some ("Target region " ++ target ++ " is currently unavailable"), 0⟩, [])
  else execute tx lat env

/-- Statuses recorded in the global transaction log during one trace, in
order. -/
def tlStatuses (tr : List Ev) : List String :=
  tr.filterMap (fun e =>
    match e with
    | Ev.tlWrite s _ => some s
    | Ev.call _ => none)

/-- The status chains the claim allows in the transaction log:
a prefix of STARTED-PREPARED-COMMITTED or of STARTED-[PREPARED-]ABORTED. -/
def allowedChain (l : List String) : Bool :=
  l.isPrefixOf ["STARTED", "PREPARED", "COMMITTED"] ||
  l.isPrefixOf ["STARTED", "PREPARED", "ABORTED"] ||
  l.isPrefixOf ["STARTED", "ABORTED"]

/-- A ride as handled by the query router; the sort key `timestamp` is
modelled as an integer instant, the identifier kept for concreteness. -/
structure QRide where
  rideId : String
  timestamp : ℤ
deriving DecidableEq

/-- Sort relation of `all_rides.sort(key=..., reverse=True)`: newest
first. -/
def tsDesc (a b : QRide) : Prop := b.timestamp ≤ a.timestamp

instance : DecidableRel tsDesc := fun a b =>
  inferInstanceAs (Decidable (b.timestamp ≤ a.timestamp))

instance : IsTotal QRide tsDesc :=
  ⟨fun a b => Or.symm (le_total a.timestamp b.timestamp)⟩

instance : IsTrans QRide tsDesc :=
  ⟨fun _ _ _ hab hbc => le_trans hbc hab⟩

/-- `RideQuery` from `services/models.py` (lines 308-326), scope omitted
since `_search_global_live` is already dispatched. -/
structure RideQuery where
  city : Option String
  min_fare : Option ℚ
  max_fare : Option ℚ
  status : Option String
  limit : Nat

/-- Body of the `all_rides` accumulation loop of `_search_global_live`
(`services/coordinator.py` lines 452-457): a successful per-region list
extends the accumulator, a failed region (exception collected by
`asyncio.gather`) is logged and skipped. -/
def extendStep (acc : List QRide) (r : Option (List QRide)) : List QRide :=
  match r with
  | some l => acc ++ l
  | none => acc

/-- The `all_rides` accumulation loop itself, folding `extendStep` over
the gathered per-region results in region order. -/
def gatherResults (results : List (Option (List QRide))) : List QRide :=
  List.foldl extendStep [] results

/-- `QueryRouter._search_global_live` (`services/coordinator.py` lines
444-461) applied to the gathered per-region results: merge, stable sort
by timestamp descending (Python's `list.sort` is stable, as is
`List.insertionSort`), truncate to `limit`. -/
def searchGlobalLive (limit : Nat) (results : List (Option (List QRide))) :
    List QRide :=
  (List.insertionSort tsDesc (gatherResults results)).take limit

/-- The region table `REGIONAL_APIS` of `services/coordinator.py`. -/
def REGIONAL_APIS : List String := ["Phoenix", "Los Angeles"]

/-- The fan-out of `_search_global_live`: one `_fetch_from_region` task
per region, each given the same query; `fetch` abstracts the HTTP round
trip of `_fetch_from_region`, `none` standing for a failed region. -/
def searchGlobalLiveRouter (fetch : String → RideQuery → Option (List QRide))
    (q : RideQuery) : List QRide :=
  searchGlobalLive q.limit (REGIONAL_APIS.map (fun region => fetch region q))

/-- Round-half-to-even on an exact rational, matching Python's `round`
at the modelled precision. -/
def roundHalfEven (x : ℚ) : ℤ :=
  let f : ℤ := ⌊x⌋
  let r : ℚ := x - f
  if r < 1 / 2 then f
  else if 1 / 2 < r then f + 1
  else if f % 2 = 0 then f else f + 1

/-- Python's `round(v, 2)` on an exact rational. -/
def round2 (v : ℚ) : ℚ := (roundHalfEven (v * 100) : ℚ) / 100

/-- Fare validation of `RideBase` in `services/models.py`: the field
constraint `Field(..., ge=0, le=1000)` followed by the
`fare_must_be_reasonable` validator (lines 47-52), which rejects
`0 < v < 5` and rounds the accepted value to two decimals. -/
def validateFare (v : ℚ) : Except String ℚ :=
  if v < 0 ∨ 1000 < v then Except.error "Input should be in range"
  else if v < 5 ∧ 0 < v then Except.error "Fare must be at least $5.00"
  else Except.ok (round2 v)

/-- Substring test on character lists, used to state that one wire string
contains another. -/
def leadsWith : List Char → List Char → Bool
  | [], _ => true
  | _ :: _, [] => false
  | c :: cs, d :: ds => c = d && leadsWith cs ds

/-- Whether `needle` occurs contiguously inside the second list. -/
def hasSub (needle : List Char) : List Char → Bool
  | [] => leadsWith needle []
  | d :: ds => leadsWith needle (d :: ds) || hasSub needle ds

/-- A free (unlocked, untagged) ride document. -/
def rideFree : RideDoc := ⟨"R-1", false, none, none⟩

/-- A ride document tagged by some other transaction `txA`. -/
def rideTagged : RideDoc := ⟨"R-1", false, some "txA", none⟩

/-- Region holding one free ride. -/
def stUnlocked : RegionState := ⟨[rideFree], []⟩

/-- Region holding one ride tagged by transaction `txA`. -/
def stTagged : RegionState := ⟨[rideTagged], []⟩

/-- Region with a PREPARED participant record of transaction `txA` for
ride `R-1`. -/
def stPriorTx : RegionState := ⟨[], [⟨"txA", "R-1", Op.DELETE, "PREPARED", none⟩]⟩

/-- DELETE prepare request of transaction `tx-1` for ride `R-1`. -/
def reqDel : PrepareRequest := ⟨"R-1", "tx-1", Op.DELETE⟩

/-- DELETE commit request of a transaction `txB` that never prepared
ride `R-1`. -/
def delReqB : CommitRequest := ⟨"R-1", "txB", Op.DELETE, none⟩

/-- Coordinator environment in which both participants vote COMMIT and
nothing fails. -/
def envBothCommit : ExecEnv :=
  ⟨PrepOutcome.httpStatus 200 (some "COMMIT") (some rideFree),
   PrepOutcome.httpStatus 200 (some "COMMIT") none, true, false, none⟩

/-- Coordinator environment in which the source participant answers 200
with vote ABORT (as it does for a missing ride) and the target would
vote COMMIT. -/
def envSourceAbort : ExecEnv :=
  ⟨PrepOutcome.httpStatus 200 (some "ABORT") none,
   PrepOutcome.httpStatus 200 (some "COMMIT") none, true, false, none⟩

/-- Health table in which Los Angeles is down. -/
def hsLAdown : List (String × Bool) := [("Phoenix", true), ("Los Angeles", false)]

/-- Claim C2 as stated: a commit DELETE removes only rides matching both
the request's `rideId` and its `tx_id`. -/
def commitDeleteMatchesTx : Prop :=
  ∀ st req, req.operation = Op.DELETE →
    ∀ r, r ∈ st.rides → r ∉ (commit_transaction st req).2.rides →
      r.rideId = req.ride_id ∧ r.transaction_id = some req.tx_id

/-- Claim C3 as stated: a duplicate DELETE prepare with the same
`(rideId, tx_id)` returns the same vote, in particular COMMIT again
after a successful prepare. -/
def duplicatePrepareSameVote : Prop :=
  ∀ st req, req.operation = Op.DELETE →
    (prepare_transaction st req).1.vote = "COMMIT" →
    (prepare_transaction (prepare_transaction st req).2 req).1.vote = "COMMIT"

/-- Claim C6 as stated: an INSERT prepare votes ABORT when a participant
record for the same ride with a conflicting `tx_id` already exists. -/
def insertPrepareConflictGuard : Prop :=
  ∀ st req, req.operation = Op.INSERT →
    (∃ t, t ∈ st.txs ∧ t.ride_id = req.ride_id ∧ t.tx_id ≠ req.tx_id) →
    (prepare_transaction st req).1.vote = "ABORT"

theorem prepare_delete_commit_inv (st : RegionState) (rid tid : String)
    (hv : (prepare_transaction st ⟨rid, tid, Op.DELETE⟩).1.vote = "COMMIT") :
    ∃ ride, st.rides.find? (fun r => r.rideId == rid) = some ride ∧ ride.locked = false ∧
      (prepare_transaction st ⟨rid, tid, Op.DELETE⟩).2.rides =
        updateFirst (fun r => r.rideId == rid)
          (fun r => { r with locked := true, transaction_id := some tid,
                             handoff_status := some "PREPARING" }) st.rides := by
  unfold prepare_transaction at hv ⊢
  dsimp only at hv ⊢
  rcases hfind : st.rides.find? (fun r => r.rideId == rid) with _ | ride
  · rw [hfind] at hv
    simp at hv
  · rw [hfind] at hv ⊢
    dsimp only at hv ⊢
    by_cases hl : ride.locked = true
    · rw [if_pos hl] at hv
      simp at hv
    · rw [if_neg hl] at hv ⊢
      exact ⟨ride, rfl, by simpa using hl, rfl⟩

theorem prepare_delete_locked (st : RegionState) (rid tid : String) (ride : RideDoc)
    (hfind : st.rides.find? (fun r => r.rideId == rid) = some ride)
    (hl : ride.locked = true) :
    prepare_transaction st ⟨rid, tid, Op.DELETE⟩ =
      (⟨"ABORT", some ("Ride " ++ rid ++ " is locked by another transaction"), none⟩, st) := by
  unfold prepare_transaction
  dsimp only
  rw [hfind]
  dsimp only
  rw [if_pos hl]

/-- Claim C1, amended: once past admission, the coordinator's very first
effect is the source prepare call, so nothing is written to the
transaction log before a prepare is sent; per handoff at most one log
record is written, with status SUCCESS (and only after both commit calls
went out) or ABORTED (from the exception handler); STARTED, PREPARED and
COMMITTED are never recorded, and with at most one record per `tx_id`
the recorded statuses trivially never downgrade. -/
theorem C1_tl_writes : ∀ tx lat env,
    (execute tx lat env).2.head? = some (Ev.call Callee.prepareS) ∧
    (tlStatuses (execute tx lat env).2 = [] ∨
     (tlStatuses (execute tx lat env).2 = ["SUCCESS"] ∧
      Ev.call Callee.commitS ∈ (execute tx lat env).2 ∧
      Ev.call Callee.commitT ∈ (execute tx lat env).2) ∨
     tlStatuses (execute tx lat env).2 = ["ABORTED"]) := by
  intro tx lat env
  obtain ⟨sp, tp, art, lf, ep⟩ := env
  rcases ep with _ | ⟨pt, msg⟩
  · by_cases hs : prepVote sp = some "COMMIT" <;> by_cases ht : prepVote tp = some "COMMIT" <;>
      cases art <;> cases lf <;>
        simp [execute, exceptPath, exnAt, abortAllEvs, logEvs, tlStatuses, hs, ht]
  · cases pt <;> by_cases hs : prepVote sp = some "COMMIT" <;>
      by_cases ht : prepVote tp = some "COMMIT" <;>
        cases art <;> cases lf <;>
          simp [execute, exceptPath, exnAt, abortAllEvs, logEvs, tlStatuses, hs, ht]

/-- Claim C1 fails on the code: in a run where both participants vote
COMMIT, the transaction log receives the single status `SUCCESS`, which
is not a prefix of the allowed chains; no STARTED record exists anywhere
in the trace although the prepare requests were sent (the trace starts
with the source prepare call). -/
theorem C1_counterexample :
    tlStatuses (execute "tx-1" 0 envBothCommit).2 = ["SUCCESS"] ∧
    allowedChain ["SUCCESS"] = false ∧
    Ev.tlWrite "STARTED" none ∉ (execute "tx-1" 0 envBothCommit).2 ∧
    "STARTED" ∉ tlStatuses (execute "tx-1" 0 envBothCommit).2 ∧
    (execute "tx-1" 0 envBothCommit).2.head? = some (Ev.call Callee.prepareS) := by
  decide

/-- Claim C1 witness: the success branch of the amended statement,
instantiated at a concrete run with both votes COMMIT. -/
theorem C1_witness :
    (execute "tx-w1" 0 envBothCommit).2.head? = some (Ev.call Callee.prepareS) ∧
    (tlStatuses (execute "tx-w1" 0 envBothCommit).2 = [] ∨
     (tlStatuses (execute "tx-w1" 0 envBothCommit).2 = ["SUCCESS"] ∧
      Ev.call Callee.commitS ∈ (execute "tx-w1" 0 envBothCommit).2 ∧
      Ev.call Callee.commitT ∈ (execute "tx-w1" 0 envBothCommit).2) ∨
     tlStatuses (execute "tx-w1" 0 envBothCommit).2 = ["ABORTED"]) :=
  C1_tl_writes "tx-w1" 0 envBothCommit

/-- Claim C2, amended: the commit DELETE filter matches on `rideId`
alone — `delete_one({rideId: ride_id})` — so every ride removed by a
commit has the request's `rideId`, but its `transaction_id` is not
consulted, and a retried commit or late commit CAN delete a ride that is
not tagged with the transaction id. -/
theorem C2_commit_delete_filter : ∀ st req, req.operation = Op.DELETE →
    (commit_transaction st req).2.rides =
      (deleteOne (fun r => r.rideId == req.ride_id) st.rides).2 ∧
    ∀ r, r ∈ st.rides → r ∉ (commit_transaction st req).2.rides →
      r.rideId = req.ride_id := by
  intro st req hop
  obtain ⟨rid, tid, op, rd⟩ := req
  dsimp at hop
  subst hop
  unfold commit_transaction
  dsimp only
  refine ⟨rfl, ?_⟩
  intro r hr hnr
  have hp := deleteOne_removed_matches (fun x : RideDoc => x.rideId == rid) st.rides r hr hnr
  simpa using hp

/-- Claim C2 fails on the code: committing DELETE for `(R-1, txB)`
against a store whose only ride `R-1` is tagged with the different
transaction `txA` still deletes that ride. -/
theorem C2_counterexample : ¬ commitDeleteMatchesTx := by
  intro h
  have hx := h stTagged delReqB rfl rideTagged (by decide) (by decide)
  exact absurd hx.2 (by decide)

/-- Claim C2 witness: the amended statement applied to the tagged-ride
store, exhibiting that the removed ride matches the rideId. -/
theorem C2_witness :
    (commit_transaction stTagged delReqB).2.rides =
      (deleteOne (fun r => r.rideId == delReqB.ride_id) stTagged.rides).2 ∧
    rideTagged.rideId = delReqB.ride_id :=
  ⟨(C2_commit_delete_filter stTagged delReqB rfl).1,
   (C2_commit_delete_filter stTagged delReqB rfl).2 rideTagged (by decide) (by decide)⟩

/-- Claim C3, amended: prepare is not idempotent — a duplicate DELETE
prepare with the very same `(rideId, tx_id)` finds the ride locked (by
itself) and returns vote ABORT with the locked-by-another-transaction
reason, not COMMIT. -/
theorem C3_duplicate_prepare_aborts : ∀ st req, req.operation = Op.DELETE →
    (prepare_transaction st req).1.vote = "COMMIT" →
    (prepare_transaction (prepare_transaction st req).2 req).1.vote = "ABORT" ∧
    (prepare_transaction (prepare_transaction st req).2 req).1.reason =
      some ("Ride " ++ req.ride_id ++ " is locked by another transaction") := by
  intro st req hop hv
  obtain ⟨rid, tid, op⟩ := req
  dsimp at hop
  subst hop
  obtain ⟨ride, hfind, hlock, hrides⟩ := prepare_delete_commit_inv st rid tid hv
  have hfind2 : ((prepare_transaction st ⟨rid, tid, Op.DELETE⟩).2).rides.find? (fun r => r.rideId == rid) = some { ride with locked := true, transaction_id := some tid, handoff_status := some "PREPARING" } := by
    rw [hrides, find?_updateFirst (fun r : RideDoc => r.rideId == rid) (fun r : RideDoc => { r with locked := true, transaction_id := some tid, handoff_status := some "PREPARING" }) (fun x hx => hx), hfind]
    rfl
  have h2 := prepare_delete_locked _ rid tid _ hfind2 rfl
  rw [h2]
  exact ⟨rfl, rfl⟩

/-- Claim C3 fails on the code: on a store with the single unlocked ride
`R-1`, the first prepare of `(R-1, tx-1)` votes COMMIT but the identical
duplicate prepare votes ABORT — the vote is not repeated. -/
theorem C3_counterexample : ¬ duplicatePrepareSameVote := by
  intro h
  have hx := h stUnlocked reqDel rfl (by decide)
  exact absurd hx (by decide)

/-- Claim C3 witness: the amended statement applied to the unlocked
single-ride store. -/
theorem C3_witness :
    (prepare_transaction (prepare_transaction stUnlocked reqDel).2 reqDel).1.vote = "ABORT" ∧
    (prepare_transaction (prepare_transaction stUnlocked reqDel).2 reqDel).1.reason =
      some ("Ride " ++ reqDel.ride_id ++ " is locked by another transaction") :=
  C3_duplicate_prepare_aborts stUnlocked reqDel rfl (by decide)

/-- Claim C4: when the health monitor marks the target region unhealthy,
`initiate_handoff` returns BUFFERED with the freshly allocated
transaction id, the unavailability reason naming the target, and
`latency_ms = 0`, and its effect trace is empty: no transaction-log
record is written and neither participant is contacted, so the source
ride is untouched. -/
theorem C4_buffered_no_effects : ∀ hs target tx lat env,
    is_healthy hs target = false →
    initiate_handoff hs target tx lat env =
      (⟨"BUFFERED", tx,
        some ("Target region " ++ target ++ " is currently unavailable"), 0⟩,
       ([] : List Ev)) := by
  intro hs target tx lat env h
  simp [initiate_handoff, h]

/-- Claim C4 witness: handoff towards unhealthy Los Angeles. -/
theorem C4_witness :
    initiate_handoff hsLAdown "Los Angeles" "tx-4" 7 envBothCommit =
      (⟨"BUFFERED", "tx-4",
        some ("Target region " ++ "Los Angeles" ++ " is currently unavailable"), 0⟩,
       ([] : List Ev)) :=
  C4_buffered_no_effects hsLAdown "Los Angeles" "tx-4" 7 envBothCommit (by decide)

theorem execute_status : ∀ tx lat env,
    ((execute tx lat env).1.status = "SUCCESS" ∨ (execute tx lat env).1.status = "ABORTED") ∧
    (execute tx lat env).1.tx_id = tx := by
  intro tx lat env
  obtain ⟨sp, tp, art, lf, ep⟩ := env
  rcases ep with _ | ⟨pt, msg⟩
  · by_cases hs : prepVote sp = some "COMMIT" <;> by_cases ht : prepVote tp = some "COMMIT" <;>
      simp [execute, exceptPath, exnAt, hs, ht]
  · cases pt <;> by_cases hs : prepVote sp = some "COMMIT" <;>
      by_cases ht : prepVote tp = some "COMMIT" <;>
        simp [execute, exceptPath, exnAt, hs, ht]

/-- Claim C5: for every handoff request and every outcome of the
participants (votes, non-200 responses, transport failures, internal
exceptions mid-protocol), the response status is exactly one of SUCCESS,
ABORTED, BUFFERED; it is never PREPARED nor any raw participant error,
and the response always carries the allocated transaction id. -/
theorem C5_terminal_status : ∀ hs target tx lat env,
    ((initiate_handoff hs target tx lat env).1.status = "SUCCESS" ∨
     (initiate_handoff hs target tx lat env).1.status = "ABORTED" ∨
     (initiate_handoff hs target tx lat env).1.status = "BUFFERED") ∧
    (initiate_handoff hs target tx lat env).1.status ≠ "PREPARED" ∧
    (initiate_handoff hs target tx lat env).1.tx_id = tx := by
  intro hs target tx lat env
  unfold initiate_handoff
  split
  · refine ⟨Or.inr (Or.inr rfl), ?_, rfl⟩
    show ("BUFFERED" : String) ≠ "PREPARED"
    decide
  · obtain ⟨h1, h2⟩ := execute_status tx lat env
    refine ⟨?_, ?_, h2⟩
    · rcases h1 with h | h
      · exact Or.inl h
      · exact Or.inr (Or.inl h)
    · rcases h1 with h | h <;> rw [h] <;> decide

/-- Claim C6, amended: an INSERT prepare votes COMMIT unconditionally —
there is no conflicting-record check — while recording a PREPARED
participant record and inserting nothing into the rides store. -/
theorem C6_insert_prepare_unconditional : ∀ st req, req.operation = Op.INSERT →
    (prepare_transaction st req).1.vote = "COMMIT" ∧
    (prepare_transaction st req).2.rides = st.rides ∧
    (prepare_transaction st req).2.txs =
      st.txs ++ [⟨req.tx_id, req.ride_id, Op.INSERT, "PREPARED", none⟩] := by
  intro st req hop
  obtain ⟨rid, tid, op⟩ := req
  dsimp at hop
  subst hop
  exact ⟨rfl, rfl, rfl⟩

/-- Claim C6 fails on the code: with an existing PREPARED participant
record for ride `R-1` under the conflicting transaction `txA`, an INSERT
prepare of `(R-1, txB)` still votes COMMIT, not ABORT. -/
theorem C6_counterexample : ¬ insertPrepareConflictGuard := by
  intro h
  have hx := h stPriorTx ⟨"R-1", "txB", Op.INSERT⟩ rfl
    ⟨⟨"txA", "R-1", Op.DELETE, "PREPARED", none⟩, by decide, rfl, by decide⟩
  exact absurd hx (by decide)

/-- Claim C6 witness: the amended statement applied to the store that
already holds a conflicting participant record. -/
theorem C6_witness :
    (prepare_transaction stPriorTx ⟨"R-1", "txB", Op.INSERT⟩).1.vote = "COMMIT" ∧
    (prepare_transaction stPriorTx ⟨"R-1", "txB", Op.INSERT⟩).2.rides = stPriorTx.rides ∧
    (prepare_transaction stPriorTx ⟨"R-1", "txB", Op.INSERT⟩).2.txs =
      stPriorTx.txs ++ [⟨"txB", "R-1", Op.INSERT, "PREPARED", none⟩] :=
  C6_insert_prepare_unconditional stPriorTx ⟨"R-1", "txB", Op.INSERT⟩ rfl

/-- Claim C7, amended: for a ride absent from the source region the
source participant votes ABORT with reason "Ride \x3cid\x3e not found in
Phoenix" and leaves its state unchanged, and the coordinator then
returns ABORTED — but with the fixed reason "Source region aborted
transaction" (the participant's not-found detail is not propagated) —
after contacting only the source: no prepare, commit or abort call ever
reaches the target, so no write is performed there. -/
theorem C7_source_abort_behavior :
    (∀ st req, req.operation = Op.DELETE →
      st.rides.find? (fun r => r.rideId == req.ride_id) = none →
      prepare_transaction st req =
        (⟨"ABORT", some ("Ride " ++ req.ride_id ++ " not found in Phoenix"), none⟩, st)) ∧
    (∀ tx lat env, prepVote env.sourcePrep ≠ some "COMMIT" →
      execute tx lat env =
        (⟨"ABORTED", tx, some "Source region aborted transaction", lat⟩,
         [Ev.call Callee.prepareS])) := by
  constructor
  · intro st req hop hfind
    obtain ⟨rid, tid, op⟩ := req
    dsimp at hop hfind ⊢
    subst hop
    unfold prepare_transaction
    dsimp only
    rw [hfind]
  · intro tx lat env hv
    simp [execute, hv]

/-- Claim C7 fails on the code: with the ride absent, the participant
does return an ABORT vote whose reason mentions "not found", but the
coordinator's handoff response carries the reason "Source region aborted
transaction", which does not contain the substring "not found"; the
target is indeed never contacted. -/
theorem C7_counterexample :
    (prepare_transaction ⟨[], []⟩ ⟨"R-999999", "tx-9", Op.DELETE⟩).1.vote = "ABORT" ∧
    (prepare_transaction ⟨[], []⟩ ⟨"R-999999", "tx-9", Op.DELETE⟩).1.reason =
      some "Ride R-999999 not found in Phoenix" ∧
    (execute "tx-9" 0 envSourceAbort).1.status = "ABORTED" ∧
    (execute "tx-9" 0 envSourceAbort).1.reason = some "Source region aborted transaction" ∧
    hasSub "not found".data "Source region aborted transaction".data = false ∧
    Ev.call Callee.prepareT ∉ (execute "tx-9" 0 envSourceAbort).2 ∧
    Ev.call Callee.commitT ∉ (execute "tx-9" 0 envSourceAbort).2 := by
  decide

/-- Claim C7 witness: both parts of the amended statement applied to the
missing ride `R-999999`. -/
theorem C7_witness :
    prepare_transaction ⟨[], []⟩ ⟨"R-999999", "tx-9", Op.DELETE⟩ =
      (⟨"ABORT", some ("Ride " ++ "R-999999" ++ " not found in Phoenix"), none⟩,
       (⟨[], []⟩ : RegionState)) ∧
    execute "tx-9" 0 envSourceAbort =
      (⟨"ABORTED", "tx-9", some "Source region aborted transaction", 0⟩,
       [Ev.call Callee.prepareS]) :=
  ⟨C7_source_abort_behavior.1 ⟨[], []⟩ ⟨"R-999999", "tx-9", Op.DELETE⟩ rfl rfl,
   C7_source_abort_behavior.2 "tx-9" 0 envSourceAbort (by decide)⟩

theorem foldl_extendStep_acc :
    ∀ (ts : List (Option (List QRide))) (acc : List QRide),
      List.foldl extendStep acc ts = acc ++ List.foldl extendStep [] ts := by
  intro ts
  induction ts with
  | nil => intro acc; simp
  | cons t ts ih =>
    intro acc
    cases t with
    | none => simpa [List.foldl, extendStep] using ih acc
    | some l =>
      simp only [List.foldl, extendStep]
      rw [ih (acc ++ l), ih ([] ++ l)]
      simp

theorem gatherResults_cons (r : Option (List QRide)) (rs : List (Option (List QRide))) :
    gatherResults (r :: rs) = extendStep [] r ++ gatherResults rs := by
  show List.foldl extendStep (extendStep [] r) rs = extendStep [] r ++ gatherResults rs
  exact foldl_extendStep_acc rs (extendStep [] r)

theorem mem_gatherResults (results : List (Option (List QRide))) (x : QRide) :
    x ∈ gatherResults results ↔ ∃ l, some l ∈ results ∧ x ∈ l := by
  induction results with
  | nil => simp [gatherResults]
  | cons r rs ih =>
    rw [gatherResults_cons]
    cases r with
    | none =>
      simp only [extendStep, List.nil_append]
      rw [ih]
      constructor
      · rintro ⟨l2, hmem, hx2⟩
        exact ⟨l2, List.mem_cons_of_mem _ hmem, hx2⟩
      · rintro ⟨l2, hmem, hx2⟩
        rcases List.mem_cons.mp hmem with heq | hmem2
        · exact absurd heq (by simp)
        · exact ⟨l2, hmem2, hx2⟩
    | some l =>
      simp only [extendStep]
      constructor
      · intro hx
        rcases List.mem_append.mp hx with hl | hg
        · exact ⟨l, List.mem_cons_self _ _, hl⟩
        · obtain ⟨l2, hmem, hx2⟩ := ih.mp hg
          exact ⟨l2, List.mem_cons_of_mem _ hmem, hx2⟩
      · rintro ⟨l2, hmem, hx2⟩
        rcases List.mem_cons.mp hmem with heq | hmem2
        · injection heq with heq2
          subst heq2
          exact List.mem_append_left _ hx2
        · exact List.mem_append_right _ (ih.mpr ⟨l2, hmem2, hx2⟩)

theorem gatherResults_skip :
    ∀ (pre post : List (Option (List QRide))),
      gatherResults (pre ++ none :: post) = gatherResults (pre ++ post) := by
  intro pre post
  induction pre with
  | nil =>
    rw [List.nil_append, List.nil_append, gatherResults_cons]
    simp [extendStep]
  | cons r rs ih =>
    rw [List.cons_append, List.cons_append, gatherResults_cons, gatherResults_cons, ih]

/-- Claim C8: a global-live search hands every regional participant the
same query (same filter, same limit), merges the per-region results in
region order, sorts the merged list by timestamp descending and
truncates it to `limit`; the output is sorted, no longer than `limit`,
made only of rides returned by some successful region, complete whenever
the merged results fit inside `limit`, and unchanged by dropping a
failed region — so partial failures still yield the remaining regions'
rides in the same order. -/
theorem C8_global_live_merge :
    (∀ limit results, List.Sorted tsDesc (searchGlobalLive limit results)) ∧
    (∀ limit results, (searchGlobalLive limit results).length ≤ limit) ∧
    (∀ limit results x, x ∈ searchGlobalLive limit results →
      ∃ l, some l ∈ results ∧ x ∈ l) ∧
    (∀ limit results, (gatherResults results).length ≤ limit →
      ∀ x, x ∈ gatherResults results → x ∈ searchGlobalLive limit results) ∧
    (∀ limit pre post,
      searchGlobalLive limit (pre ++ none :: post) = searchGlobalLive limit (pre ++ post)) ∧
    (∀ fetch q, searchGlobalLiveRouter fetch q =
      searchGlobalLive q.limit (REGIONAL_APIS.map (fun region => fetch region q))) := by
  refine ⟨?_, ?_, ?_, ?_, ?_, fun _ _ => rfl⟩
  · intro limit results
    exact List.Pairwise.sublist (List.take_sublist _ _)
      (List.sorted_insertionSort tsDesc (gatherResults results))
  · intro limit results
    unfold searchGlobalLive
    rw [List.length_take]
    exact min_le_left _ _
  · intro limit results x hx
    unfold searchGlobalLive at hx
    have hx2 := (List.take_sublist _ _).subset hx
    have hx3 : x ∈ gatherResults results :=
      (List.perm_insertionSort tsDesc (gatherResults results)).mem_iff.mp hx2
    exact (mem_gatherResults results x).mp hx3
  · intro limit results hlen x hx
    unfold searchGlobalLive
    rw [List.take_of_length_le]
    · exact (List.perm_insertionSort tsDesc (gatherResults results)).mem_iff.mpr hx
    · rw [(List.perm_insertionSort tsDesc (gatherResults results)).length_eq]
      exact hlen
  · intro limit pre post
    unfold searchGlobalLive
    rw [gatherResults_skip]

/-- A Phoenix ride older than the Los Angeles one. -/
def qr1 : QRide := ⟨"R-1", 5⟩

/-- A Los Angeles ride newer than the Phoenix one. -/
def qr2 : QRide := ⟨"R-2", 9⟩

/-- Gathered results with the middle region failed. -/
def res8 : List (Option (List QRide)) := [some [qr1], none, some [qr2]]

/-- Claim C8 witness: provenance and failure-skip parts of the theorem
applied to a concrete gather with one failed region. -/
theorem C8_witness :
    (∃ l, some l ∈ res8 ∧ qr2 ∈ l) ∧
    searchGlobalLive 10 ([some [qr1]] ++ none :: [some [qr2]]) =
      searchGlobalLive 10 ([some [qr1]] ++ [some [qr2]]) :=
  ⟨C8_global_live_merge.2.2.1 10 res8 qr2 (by decide),
   C8_global_live_merge.2.2.2.2.1 10 [some [qr1]] [some [qr2]]⟩

theorem roundHalfEven_intCast (n : ℤ) : roundHalfEven (n : ℚ) = n := by
  unfold roundHalfEven
  rw [Int.floor_intCast]
  norm_num

/-- Claim C9: fare validation accepts exactly 0 (returning 0), rejects
every fare strictly between 0 and 5 — such as 4.99 — with the
`Validation` message, and every accepted fare comes out as `round2` of
the input, that is rounded to two decimal places (one hundred times the
result is an integer). -/
theorem C9_fare_validation :
    validateFare 0 = Except.ok 0 ∧
    (∀ v : ℚ, 0 < v → v < 5 →
      validateFare v = Except.error "Fare must be at least $5.00") ∧
    (∀ v r : ℚ, validateFare v = Except.ok r →
      r = round2 v ∧ r * 100 = ((roundHalfEven (v * 100) : ℤ) : ℚ)) := by
  refine ⟨?_, ?_, ?_⟩
  · unfold validateFare
    rw [if_neg (by norm_num), if_neg (by norm_num)]
    have h0 : ((0 : ℚ) * 100) = ((0 : ℤ) : ℚ) := by norm_num
    unfold round2
    rw [h0, roundHalfEven_intCast]
    norm_num
  · intro v h0 h5
    unfold validateFare
    rw [if_neg (by push_neg; constructor <;> linarith), if_pos ⟨h5, h0⟩]
  · intro v r h
    unfold validateFare at h
    split_ifs at h
    all_goals
      rw [Except.ok.injEq] at h
      subst h
      refine ⟨rfl, ?_⟩
      unfold round2
      rw [div_mul_cancel₀ _ (by norm_num : (100 : ℚ) ≠ 0)]

/-- Claim C9 witness: 4.99 sits strictly between 0 and 5 and is rejected
with the validation message. -/
theorem C9_witness :
    (0 : ℚ) < 499 / 100 ∧ (499 / 100 : ℚ) < 5 ∧
    validateFare (499 / 100) = Except.error "Fare must be at least $5.00" :=
  ⟨by norm_num, by norm_num,
   C9_fare_validation.2.1 (499 / 100) (by norm_num) (by norm_num)⟩

/-- Region with a PREPARED participant record for `tx-1` and an empty
rides store, so a commit DELETE matches nothing. -/
def stTx10 : RegionState := ⟨[], [⟨"tx-1", "R-1", Op.DELETE, "PREPARED", none⟩]⟩

/-- Commit request of transaction `tx-1` deleting ride `R-1`. -/
def delCommit10 : CommitRequest := ⟨"R-1", "tx-1", Op.DELETE, none⟩

/-- Claim C10: every commit DELETE responds COMMITTED — reporting the
actual `deleted_count`, including 0 for a missing or already-deleted
ride — and sets the first participant record of the transaction to
COMMITTED; a zero-match deletion is never reported as a failure. -/
theorem C10_commit_delete_always_committed : ∀ st req, req.operation = Op.DELETE →
    (commit_transaction st req).1.status = "COMMITTED" ∧
    (commit_transaction st req).1.deleted_count =
      some (deleteOne (fun r => r.rideId == req.ride_id) st.rides).1 ∧
    ∀ t, st.txs.find? (fun tr => tr.tx_id == req.tx_id) = some t →
      (commit_transaction st req).2.txs.find? (fun tr => tr.tx_id == req.tx_id) =
        some { t with state := "COMMITTED" } := by
  intro st req hop
  obtain ⟨rid, tid, op, rd⟩ := req
  dsimp at hop
  subst hop
  unfold commit_transaction
  dsimp only
  refine ⟨rfl, rfl, ?_⟩
  intro t ht
  rw [find?_updateFirst (fun tr : TxRecord => tr.tx_id == tid) (fun tr : TxRecord => { tr with state := "COMMITTED" }) (fun x hx => hx), ht]
  rfl

/-- Claim C10 witness: committing the DELETE against an empty rides
store yields COMMITTED with `deleted_count = 0` and the participant
record flipped to COMMITTED. -/
theorem C10_witness :
    (commit_transaction stTx10 delCommit10).1.status = "COMMITTED" ∧
    (commit_transaction stTx10 delCommit10).1.deleted_count =
      some (deleteOne (fun r => r.rideId == delCommit10.ride_id) stTx10.rides).1 ∧
    (commit_transaction stTx10 delCommit10).2.txs.find?
        (fun tr => tr.tx_id == delCommit10.tx_id) =
      some ⟨"tx-1", "R-1", Op.DELETE, "COMMITTED", none⟩ :=
  ⟨(C10_commit_delete_always_committed stTx10 delCommit10 rfl).1,
   (C10_commit_delete_always_committed stTx10 delCommit10 rfl).2.1,
   (C10_commit_delete_always_committed stTx10 delCommit10 rfl).2.2
     ⟨"tx-1", "R-1", Op.DELETE, "PREPARED", none⟩ (by decide)⟩

end CSE512
